import Mathlib

/-!
Verification of the renderer wrapper in `src/renderer.rs` (beryllium).

The file is a shallow embedding of `Renderer`'s methods.  The native SDL2
library is external to the repository, so its observable behaviour at this
boundary is modelled from the spec: an `SDLState` holding the backend's
draw-color state and its thread-local last-error string, and, for every
fallible native call, an explicit outcome oracle argument saying whether the
call succeeds or fails (and with which error string).  Each wrapper method
returns the value handed back to the caller, the backend state afterwards,
and the ordered list of native rendering calls it made.
-/

namespace Beryllium

/-- Native pointers are modelled as natural-number addresses; `0` plays the
role of the null pointer where a null check occurs. -/
abbrev Ptr := Nat

/-- Modelled from the spec: the four-channel draw color (red, green, blue,
alpha).  Channels are `u8` values; the renderer performs no channel
arithmetic, so they are carried as plain naturals. -/
structure Color where
  r : Nat
  g : Nat
  b : Nat
  a : Nat
  deriving DecidableEq

/-- Modelled from the spec: a plain geometric point value (`i32` coordinates),
passed by reference into drawing calls with no ownership semantics. -/
structure Point where
  x : Int
  y : Int
  deriving DecidableEq

/-- Modelled from the spec: a plain geometric rectangle value. -/
structure Rect where
  x : Int
  y : Int
  w : Int
  h : Int
  deriving DecidableEq

/-- Modelled from the spec: a CPU-side pixel surface, external to this
component; only its native handle crosses the foreign boundary here. -/
structure Surface where
  ptr : Ptr
  deriving DecidableEq

/-- The renderer wrapper of `renderer.rs`: its only stored state is the native
handle pointer (`PhantomData` and the lifetime parameters are compile-time
constructs with no runtime representation). -/
structure Renderer where
  ptr : Ptr
  deriving DecidableEq

/-- An owned texture wrapping a native texture handle; lifetime bounds are
compile-time only. -/
structure Texture where
  ptr : Ptr
  deriving DecidableEq

/-- Modelled from the spec: the native library's observable state at this
boundary — its current draw-color state and its thread-local last-error
string. -/
structure SDLState where
  drawColor : Color
  lastError : String
  deriving DecidableEq

/-- One native (foreign) rendering call made by the wrapper, together with the
arguments passed across the boundary.  A pointer to slice data is recorded as
the pointed-to data itself, and a possibly-null rectangle pointer as an
`Option Rect` (`none` = the null pointer). -/
inductive NativeCall where
  | createTextureFromSurface (ren surf : Ptr)
  | getRenderDrawColor (ren : Ptr)
  | setRenderDrawColor (ren : Ptr) (r g b a : Nat)
  | renderClear (ren : Ptr)
  | renderDrawLine (ren : Ptr) (x1 y1 x2 y2 : Int)
  | renderDrawLines (ren : Ptr) (pts : List Point) (count : Int)
  | renderCopy (ren tex : Ptr) (srcPtr dstPtr : Option Rect)
  | renderPresent (ren : Ptr)
  deriving DecidableEq

/-- Result of running one wrapper method: the value returned to the caller,
the backend state afterwards, and the native rendering calls made, in order. -/
structure StepResult (α : Type) where
  res : α
  st : SDLState
  calls : List NativeCall
  deriving DecidableEq

/-- Modelled from the spec: `get_error` (defined outside `renderer.rs`)
fetches the library's thread-local last-error string. -/
def get_error (s : SDLState) : String := s.lastError

/-- Two's-complement truncation of a `usize` value to `i32`, the semantics of
the `points.len() as i32` cast in `draw_lines`. -/
def usizeToI32 (n : Nat) : Int :=
  if n % 4294967296 < 2147483648 then ((n % 4294967296 : Nat) : Int)
  else ((n % 4294967296 : Nat) : Int) - 4294967296

/-- Modelled native call `SDL_CreateTextureFromSurface`.  The outcome oracle
decides the result: `Except.error e` means the call returned the null pointer
after setting the library's last error to `e`; `Except.ok p` means it
returned the non-null texture handle `p`.  The raw return value is the
possibly-null pointer `Option Ptr`. -/
def SDL_CreateTextureFromSurface (o : Except String Ptr) (ren surf : Ptr)
    (s : SDLState) : StepResult (Option Ptr) :=
  match o with
  | .error e => ⟨none, { s with lastError := e }, [.createTextureFromSurface ren surf]⟩
  | .ok p => ⟨some p, s, [.createTextureFromSurface ren surf]⟩

/-- Modelled native call `SDL_GetRenderDrawColor`: on success (oracle `none`)
it returns status 0 and writes the backend's current draw color through the
four output parameters; on failure (`some (e, junk)`) it returns a nonzero
status, sets the last error to `e`, and the default-initialised temporary may
be left holding arbitrary, possibly partially written, channels `junk`. -/
def SDL_GetRenderDrawColor (o : Option (String × Color)) (ren : Ptr)
    (s : SDLState) : StepResult (Int × Color) :=
  match o with
  | none => ⟨(0, s.drawColor), s, [.getRenderDrawColor ren]⟩
  | some (e, junk) => ⟨(-1, junk), { s with lastError := e }, [.getRenderDrawColor ren]⟩

/-- Modelled native call `SDL_SetRenderDrawColor`: on success it stores the
four channel values into the backend's draw-color state and returns 0; on
failure it returns a nonzero status and sets the last error. -/
def SDL_SetRenderDrawColor (o : Option String) (ren : Ptr) (r g b a : Nat)
    (s : SDLState) : StepResult Int :=
  match o with
  | none => ⟨0, { s with drawColor := ⟨r, g, b, a⟩ }, [.setRenderDrawColor ren r g b a]⟩
  | some e => ⟨-1, { s with lastError := e }, [.setRenderDrawColor ren r g b a]⟩

/-- Modelled native call `SDL_RenderClear`: status 0 on success, nonzero with
the last error set on failure. -/
def SDL_RenderClear (o : Option String) (ren : Ptr) (s : SDLState) : StepResult Int :=
  match o with
  | none => ⟨0, s, [.renderClear ren]⟩
  | some e => ⟨-1, { s with lastError := e }, [.renderClear ren]⟩

/-- Modelled native call `SDL_RenderDrawLine`. -/
def SDL_RenderDrawLine (o : Option String) (ren : Ptr) (x1 y1 x2 y2 : Int)
    (s : SDLState) : StepResult Int :=
  match o with
  | none => ⟨0, s, [.renderDrawLine ren x1 y1 x2 y2]⟩
  | some e => ⟨-1, { s with lastError := e }, [.renderDrawLine ren x1 y1 x2 y2]⟩

/-- Modelled native call `SDL_RenderDrawLines`: receives the slice data
pointer (recorded as the pointed-to points) and the `i32` count. -/
def SDL_RenderDrawLines (o : Option String) (ren : Ptr) (pts : List Point)
    (count : Int) (s : SDLState) : StepResult Int :=
  match o with
  | none => ⟨0, s, [.renderDrawLines ren pts count]⟩
  | some e => ⟨-1, { s with lastError := e }, [.renderDrawLines ren pts count]⟩

/-- Modelled native call `SDL_RenderCopy`: receives the renderer and texture
handles and the two possibly-null rectangle pointers. -/
def SDL_RenderCopy (o : Option String) (ren tex : Ptr) (srcPtr dstPtr : Option Rect)
    (s : SDLState) : StepResult Int :=
  match o with
  | none => ⟨0, s, [.renderCopy ren tex srcPtr dstPtr]⟩
  | some e => ⟨-1, { s with lastError := e }, [.renderCopy ren tex srcPtr dstPtr]⟩

/-- Modelled native call `SDL_RenderPresent`: returns no status (void). -/
def SDL_RenderPresent (ren : Ptr) (s : SDLState) : StepResult Unit :=
  ⟨(), s, [.renderPresent ren]⟩

/-- `Renderer::create_texture_from_surface`: makes the native call; if the
returned pointer is null, fails with the fetched last error, otherwise wraps
the pointer in an owned `Texture`. -/
def create_texture_from_surface (o : Except String Ptr) (ren : Renderer)
    (surf : Surface) (s : SDLState) : StepResult (Except String Texture) :=
  let step := SDL_CreateTextureFromSurface o ren.ptr surf.ptr s
  match step.res with
  | none => ⟨.error (get_error step.st), step.st, step.calls⟩
  | some p => ⟨.ok ⟨p⟩, step.st, step.calls⟩

/-- `Renderer::draw_color`: calls the native getter with four output channel
slots; on status 0 returns the aggregated color, otherwise fails with the
fetched last error (discarding whatever the temporary holds). -/
def draw_color (o : Option (String × Color)) (ren : Renderer) (s : SDLState) :
    StepResult (Except String Color) :=
  let step := SDL_GetRenderDrawColor o ren.ptr s
  let out := step.res.1
  let color := step.res.2
  if out = 0 then ⟨.ok color, step.st, step.calls⟩
  else ⟨.error (get_error step.st), step.st, step.calls⟩

/-- `Renderer::set_draw_color`: passes the four channels of `color` to the
native setter; `Ok` on status 0, otherwise the fetched last error. -/
def set_draw_color (o : Option String) (ren : Renderer) (color : Color)
    (s : SDLState) : StepResult (Except String Unit) :=
  let step := SDL_SetRenderDrawColor o ren.ptr color.r color.g color.b color.a s
  if step.res = 0 then ⟨.ok (), step.st, step.calls⟩
  else ⟨.error (get_error step.st), step.st, step.calls⟩

/-- `Renderer::clear`: `Ok` on status 0, otherwise the fetched last error. -/
def clear (o : Option String) (ren : Renderer) (s : SDLState) :
    StepResult (Except String Unit) :=
  let step := SDL_RenderClear o ren.ptr s
  if step.res = 0 then ⟨.ok (), step.st, step.calls⟩
  else ⟨.error (get_error step.st), step.st, step.calls⟩

/-- `Renderer::draw_line`: `Ok` on status 0, otherwise the fetched last
error. -/
def draw_line (o : Option String) (ren : Renderer) (x1 y1 x2 y2 : Int)
    (s : SDLState) : StepResult (Except String Unit) :=
  let step := SDL_RenderDrawLine o ren.ptr x1 y1 x2 y2 s
  if step.res = 0 then ⟨.ok (), step.st, step.calls⟩
  else ⟨.error (get_error step.st), step.st, step.calls⟩

/-- `Renderer::draw_lines`: if the slice length exceeds `i32::MAX` it returns
the local validation error before any native call; otherwise it passes the
slice data pointer and the length cast to `i32` to the native call, then
translates the status as usual. -/
def draw_lines (o : Option String) (ren : Renderer) (points : List Point)
    (s : SDLState) : StepResult (Except String Unit) :=
  if points.length > 2147483647 then
    ⟨.error "beryllium error: len cannot exceed `i32::MAX`.", s, []⟩
  else
    let count : Int := usizeToI32 points.length
    let step := SDL_RenderDrawLines o ren.ptr points count s
    if step.res = 0 then ⟨.ok (), step.st, step.calls⟩
    else ⟨.error (get_error step.st), step.st, step.calls⟩

/-- `Renderer::copy`: converts each `Option<&Rect>` into a possibly-null
rectangle pointer (the transmute maps `None` to null and `Some(&r)` to a
pointer to exactly `r`), makes the native blit call, and translates the
status. -/
def copy (o : Option String) (ren : Renderer) (t : Texture)
    (src dst : Option Rect) (s : SDLState) : StepResult (Except String Unit) :=
  let srcPtr : Option Rect := src
  let dstPtr : Option Rect := dst
  let step := SDL_RenderCopy o ren.ptr t.ptr srcPtr dstPtr s
  if step.res = 0 then ⟨.ok (), step.st, step.calls⟩
  else ⟨.error (get_error step.st), step.st, step.calls⟩

/-- `Renderer::present`: makes the (void) native present call and returns
nothing. -/
def present (ren : Renderer) (s : SDLState) : StepResult Unit :=
  let step := SDL_RenderPresent ren.ptr s
  ⟨(), step.st, step.calls⟩

/-- The renderer-handle argument of a native rendering call (every call at
this boundary takes one). -/
def NativeCall.renderArg : NativeCall → Ptr
  | .createTextureFromSurface ren _ => ren
  | .getRenderDrawColor ren => ren
  | .setRenderDrawColor ren _ _ _ _ => ren
  | .renderClear ren => ren
  | .renderDrawLine ren _ _ _ _ => ren
  | .renderDrawLines ren _ _ => ren
  | .renderCopy ren _ _ _ => ren
  | .renderPresent ren => ren

/-- For lengths within the `i32` range the `usize` to `i32` cast is the
identity (no truncation). -/
theorem usizeToI32_eq_of_le (n : Nat) (h : n ≤ 2147483647) :
    usizeToI32 n = (n : Int) := by
  have hlt : n % 4294967296 = n := Nat.mod_eq_of_lt (by omega)
  simp only [usizeToI32, hlt]
  split
  · rfl
  · omega

/-- C1: for every point slice whose length exceeds `i32::MAX`, `draw_lines`
returns the local validation error (the static descriptive message) and makes
no native call — in particular `SDL_RenderDrawLines` is never invoked. -/
theorem draw_lines_overlong_fails_locally (o : Option String) (ren : Renderer)
    (points : List Point) (s : SDLState) (h : points.length > 2147483647) :
    (draw_lines o ren points s).res =
      .error "beryllium error: len cannot exceed `i32::MAX`." ∧
    (draw_lines o ren points s).calls = [] := by
  simp [draw_lines, h]

/-- Witness for C1: a slice of `2^31` points trips the guard. -/
theorem draw_lines_overlong_fails_locally_witness :
    (List.replicate 2147483648 (Point.mk 0 0)).length > 2147483647 ∧
    ((draw_lines none ⟨1⟩ (List.replicate 2147483648 (Point.mk 0 0))
        ⟨⟨0, 0, 0, 0⟩, ""⟩).res =
      .error "beryllium error: len cannot exceed `i32::MAX`." ∧
    (draw_lines none ⟨1⟩ (List.replicate 2147483648 (Point.mk 0 0))
        ⟨⟨0, 0, 0, 0⟩, ""⟩).calls = []) :=
  ⟨by simp only [List.length_replicate]; decide,
   draw_lines_overlong_fails_locally none ⟨1⟩ _ _
     (by simp only [List.length_replicate]; decide)⟩

/-- C2: for every point slice whose length is at most `i32::MAX` (including 0
and 1), `draw_lines` makes exactly one native call, passing the slice data and
a count equal to the slice length, with no truncation. -/
theorem draw_lines_forwards_exact_count (o : Option String) (ren : Renderer)
    (points : List Point) (s : SDLState) (h : points.length ≤ 2147483647) :
    (draw_lines o ren points s).calls =
      [.renderDrawLines ren.ptr points (points.length : Int)] := by
  have hng : ¬ points.length > 2147483647 := by omega
  cases o with
  | none =>
      simp [draw_lines, hng, SDL_RenderDrawLines, usizeToI32_eq_of_le _ h]
  | some e =>
      simp [draw_lines, hng, SDL_RenderDrawLines, usizeToI32_eq_of_le _ h]

/-- Witness for C2: a two-point slice is forwarded with count 2. -/
theorem draw_lines_forwards_exact_count_witness :
    ([Point.mk 0 0, Point.mk 3 4] : List Point).length ≤ 2147483647 ∧
    (draw_lines none ⟨1⟩ [Point.mk 0 0, Point.mk 3 4] ⟨⟨0, 0, 0, 0⟩, ""⟩).calls =
      [.renderDrawLines 1 [Point.mk 0 0, Point.mk 3 4] 2] :=
  ⟨by decide, draw_lines_forwards_exact_count none ⟨1⟩ _ _ (by decide)⟩

/-- C3: if `set_draw_color c` succeeds and `draw_color` is called immediately
afterwards (no intervening operation mutating the draw-color state) and also
succeeds, then the color it returns equals `c` — the set/get round-trip law. -/
theorem set_then_get_draw_color_roundtrip (o1 : Option String)
    (o2 : Option (String × Color)) (ren : Renderer) (c c' : Color) (s : SDLState)
    (h1 : (set_draw_color o1 ren c s).res = .ok ())
    (h2 : (draw_color o2 ren (set_draw_color o1 ren c s).st).res = .ok c') :
    c' = c := by
  cases o1 with
  | some e => simp [set_draw_color, SDL_SetRenderDrawColor, get_error] at h1
  | none =>
    cases o2 with
    | some p =>
      obtain ⟨e, junk⟩ := p
      simp [draw_color, SDL_GetRenderDrawColor, set_draw_color,
        SDL_SetRenderDrawColor, get_error] at h2
    | none =>
      simp [draw_color, SDL_GetRenderDrawColor, set_draw_color,
        SDL_SetRenderDrawColor] at h2
      exact h2.symm

/-- Witness for C3: setting (1,2,3,4) and reading it back succeeds and returns
the same color. -/
theorem set_then_get_draw_color_roundtrip_witness :
    (set_draw_color none ⟨1⟩ ⟨1, 2, 3, 4⟩ ⟨⟨0, 0, 0, 0⟩, ""⟩).res = .ok () ∧
    (draw_color none ⟨1⟩
        (set_draw_color none ⟨1⟩ ⟨1, 2, 3, 4⟩ ⟨⟨0, 0, 0, 0⟩, ""⟩).st).res =
      .ok ⟨1, 2, 3, 4⟩ ∧
    (⟨1, 2, 3, 4⟩ : Color) = ⟨1, 2, 3, 4⟩ :=
  ⟨rfl, rfl,
   set_then_get_draw_color_roundtrip none none ⟨1⟩ ⟨1, 2, 3, 4⟩ ⟨1, 2, 3, 4⟩
     ⟨⟨0, 0, 0, 0⟩, ""⟩ rfl rfl⟩

/-- C4: `copy` makes exactly one native blit call; when `src` or `dst` is
`none`, the corresponding rectangle pointer is null (whole texture / whole
render target), and when it is `some r` the pointer targets exactly the
rectangle `r`, unmodified. -/
theorem copy_forwards_rect_pointers (o : Option String) (ren : Renderer)
    (t : Texture) (src dst : Option Rect) (s : SDLState) :
    (copy o ren t src dst s).calls = [.renderCopy ren.ptr t.ptr src dst] := by
  cases o <;> simp [copy, SDL_RenderCopy, get_error]

/-- C5: when the native texture-creation call reports failure (null pointer
result), `create_texture_from_surface` fails with exactly the last-error
string the library set at that failing call, fetched immediately afterwards
(no other native call intervenes: the operation makes exactly one native
call); on a non-null result it returns an owned texture wrapping that
pointer. -/
theorem create_texture_from_surface_result (o : Except String Ptr)
    (ren : Renderer) (surf : Surface) (s : SDLState) :
    (create_texture_from_surface o ren surf s).res =
      (match o with
       | .error e => .error e
       | .ok p => .ok ⟨p⟩) ∧
    (create_texture_from_surface o ren surf s).calls =
      [.createTextureFromSurface ren.ptr surf.ptr] := by
  cases o <;>
    simp [create_texture_from_surface, SDL_CreateTextureFromSurface, get_error]

/-- C6: each status-returning operation (`draw_color`, `set_draw_color`,
`clear`, `draw_line`, `draw_lines` past its guard, `copy`) returns `Ok`
exactly when the native call returns status 0, and otherwise immediately
returns the last-error string that very call set (fetched before any other
native call); the result is fully determined by the single native outcome —
no retry or local recovery. -/
theorem status_ops_ok_iff_native_zero
    (og : Option (String × Color)) (os oc ol od ocp : Option String)
    (ren : Renderer) (t : Texture) (c : Color) (x1 y1 x2 y2 : Int)
    (pts : List Point) (src dst : Option Rect) (s : SDLState)
    (h : pts.length ≤ 2147483647) :
    (draw_color og ren s).res =
      (match og with | none => .ok s.drawColor | some (e, _) => .error e) ∧
    (set_draw_color os ren c s).res =
      (match os with | none => .ok () | some e => .error e) ∧
    (clear oc ren s).res =
      (match oc with | none => .ok () | some e => .error e) ∧
    (draw_line ol ren x1 y1 x2 y2 s).res =
      (match ol with | none => .ok () | some e => .error e) ∧
    (draw_lines od ren pts s).res =
      (match od with | none => .ok () | some e => .error e) ∧
    (copy ocp ren t src dst s).res =
      (match ocp with | none => .ok () | some e => .error e) := by
  have hng : ¬ pts.length > 2147483647 := by omega
  refine ⟨?_, ?_, ?_, ?_, ?_, ?_⟩
  · cases og with
    | none => simp [draw_color, SDL_GetRenderDrawColor]
    | some p =>
      obtain ⟨e, junk⟩ := p
      simp [draw_color, SDL_GetRenderDrawColor, get_error]
  · cases os <;> simp [set_draw_color, SDL_SetRenderDrawColor, get_error]
  · cases oc <;> simp [clear, SDL_RenderClear, get_error]
  · cases ol <;> simp [draw_line, SDL_RenderDrawLine, get_error]
  · cases od <;> simp [draw_lines, hng, SDL_RenderDrawLines, get_error]
  · cases ocp <;> simp [copy, SDL_RenderCopy, get_error]

/-- Witness for C6: concrete success and failure outcomes for each
status-returning operation. -/
theorem status_ops_ok_iff_native_zero_witness :
    ([] : List Point).length ≤ 2147483647 ∧
    ((draw_color (some ("E1", ⟨9, 9, 9, 9⟩)) ⟨1⟩ ⟨⟨0, 0, 0, 0⟩, ""⟩).res =
        .error "E1" ∧
     (set_draw_color none ⟨1⟩ ⟨1, 2, 3, 4⟩ ⟨⟨0, 0, 0, 0⟩, ""⟩).res = .ok () ∧
     (clear (some "E2") ⟨1⟩ ⟨⟨0, 0, 0, 0⟩, ""⟩).res = .error "E2" ∧
     (draw_line none ⟨1⟩ 0 0 5 5 ⟨⟨0, 0, 0, 0⟩, ""⟩).res = .ok () ∧
     (draw_lines (some "E3") ⟨1⟩ [] ⟨⟨0, 0, 0, 0⟩, ""⟩).res = .error "E3" ∧
     (copy none ⟨1⟩ ⟨2⟩ none (some ⟨0, 0, 4, 4⟩) ⟨⟨0, 0, 0, 0⟩, ""⟩).res =
        .ok ()) :=
  ⟨by decide,
   status_ops_ok_iff_native_zero (some ("E1", ⟨9, 9, 9, 9⟩)) none (some "E2")
     none (some "E3") none ⟨1⟩ ⟨2⟩ ⟨1, 2, 3, 4⟩ 0 0 5 5 [] none
     (some ⟨0, 0, 4, 4⟩) ⟨⟨0, 0, 0, 0⟩, ""⟩ (by decide)⟩

/-- C8: `present` is infallible from the caller's point of view: it returns no
value (unit), makes exactly one native present call, and reports no error —
the native present call is void, so there is no outcome to translate. -/
theorem present_infallible_single_call (ren : Renderer) (s : SDLState) :
    present ren s = ⟨(), s, [.renderPresent ren.ptr]⟩ := rfl

/-- C9: when the native draw-color getter fails, the caller observes only the
error string: the result is identical whatever partially written channel
values the temporary color holds, and those values are never returned. -/
theorem draw_color_error_independent_of_partial_writes (e : String)
    (junk1 junk2 : Color) (ren : Renderer) (s : SDLState) :
    (draw_color (some (e, junk1)) ren s).res =
      (draw_color (some (e, junk2)) ren s).res ∧
    (draw_color (some (e, junk1)) ren s).res = .error e := by
  constructor <;> simp [draw_color, SDL_GetRenderDrawColor, get_error]

/-- C10: every renderer operation takes the renderer by shared reference — in
the embedding no operation returns a renderer, so the wrapper's only stored
state, the handle pointer, cannot change; all state effects land in the
backend `SDLState`, and every native call each operation makes receives the
wrapper's stored handle pointer. -/
theorem ops_pass_stored_handle_to_every_native_call
    (otex : Except String Ptr) (og : Option (String × Color))
    (os oc ol od ocp : Option String) (ren : Renderer) (t : Texture)
    (surf : Surface) (c : Color) (x1 y1 x2 y2 : Int) (pts : List Point)
    (src dst : Option Rect) (s : SDLState) :
    ((create_texture_from_surface otex ren surf s).calls.all
      (fun k => k.renderArg == ren.ptr)) = true ∧
    ((draw_color og ren s).calls.all (fun k => k.renderArg == ren.ptr)) = true ∧
    ((set_draw_color os ren c s).calls.all
      (fun k => k.renderArg == ren.ptr)) = true ∧
    ((clear oc ren s).calls.all (fun k => k.renderArg == ren.ptr)) = true ∧
    ((draw_line ol ren x1 y1 x2 y2 s).calls.all
      (fun k => k.renderArg == ren.ptr)) = true ∧
    ((draw_lines od ren pts s).calls.all
      (fun k => k.renderArg == ren.ptr)) = true ∧
    ((copy ocp ren t src dst s).calls.all
      (fun k => k.renderArg == ren.ptr)) = true ∧
    ((present ren s).calls.all (fun k => k.renderArg == ren.ptr)) = true := by
  refine ⟨?_, ?_, ?_, ?_, ?_, ?_, ?_, ?_⟩
  · cases otex <;>
      simp [create_texture_from_surface, SDL_CreateTextureFromSurface,
        get_error, NativeCall.renderArg]
  · cases og with
    | none => simp [draw_color, SDL_GetRenderDrawColor, NativeCall.renderArg]
    | some p =>
      obtain ⟨e, junk⟩ := p
      simp [draw_color, SDL_GetRenderDrawColor, get_error,
        NativeCall.renderArg]
  · cases os <;>
      simp [set_draw_color, SDL_SetRenderDrawColor, get_error,
        NativeCall.renderArg]
  · cases oc <;> simp [clear, SDL_RenderClear, get_error, NativeCall.renderArg]
  · cases ol <;>
      simp [draw_line, SDL_RenderDrawLine, get_error, NativeCall.renderArg]
  · by_cases hlen : pts.length > 2147483647
    · simp [draw_lines, hlen]
    · cases od <;>
        simp [draw_lines, hlen, SDL_RenderDrawLines, get_error,
          NativeCall.renderArg]
  · cases ocp <;>
      simp [copy, SDL_RenderCopy, get_error, NativeCall.renderArg]
  · simp [present, SDL_RenderPresent, NativeCall.renderArg]

end Beryllium
